import Mathlib

/-!
Verification of the StockVista scoring and valuation engine.

This file gives a shallow embedding, in Lean 4, of the pure computational
core of the repository: the recommendation scorer (src/recommendations.py),
the valuation functions (src/valuation.py), and the symbol search plus the
profit-compounding analyzer (src/company_search.py), together with theorems
settling the specification claims about them.

Modelling conventions:
* Python floats are modelled as exact rationals (ℚ).  The source only ever
  compares, adds, multiplies and divides, so the algorithms are rational.
* A provider field that may be missing from the `info` dict is an
  `Option ℚ` (or `Option String`); `info.get(key, 0)` becomes `getD 0`,
  and Python truthiness `if x:` on the result becomes a `≠ 0` test.
* pandas NaN entries inside a statement line are `Option ℚ` values and
  `dropna` filters them out.
* The two IEEE special cases the source relies on are made explicit:
  in the RSI computation `gain/0 = +inf` (giving RSI = 100) and
  `0/0 = NaN` (giving an undefined RSI) are modelled by an `Option ℚ`
  result instead of the ℚ convention `x / 0 = 0`.
* Strings are compared and transformed through their character lists so
  that every operation reduces in the kernel; `lower`, `upper` and `strip`
  are modelled directly (ASCII case mapping, as in the data involved).
-/

/- ## Generic helpers -/

/-- Python `s.lower()`. -/
def strLower (s : String) : String := ⟨s.data.map Char.toLower⟩

/-- Python `s.upper()`. -/
def strUpper (s : String) : String := ⟨s.data.map Char.toUpper⟩

/-- Python `s.strip()` on a character list. -/
def trimList (l : List Char) : List Char :=
  ((l.dropWhile Char.isWhitespace).reverse.dropWhile Char.isWhitespace).reverse

/-- Python `s.strip()`. -/
def strStrip (s : String) : String := ⟨trimList s.data⟩

/-- Does `xs` start with `ys`? -/
def chListHasPre : List Char → List Char → Bool
  | _, [] => true
  | [], _ :: _ => false
  | x :: xs, y :: ys => x == y && chListHasPre xs ys

/-- Does `ys` occur contiguously inside `xs`? -/
def chListHasSub : List Char → List Char → Bool
  | [], ys => ys.isEmpty
  | x :: xs, ys => chListHasPre (x :: xs) ys || chListHasSub xs ys

/-- Python `sub in s` (substring containment). -/
def strHasSub (s sub : String) : Bool := chListHasSub s.data sub.data

/-- Consecutive differences, `series.diff()` without its leading NaN:
`diffs [a, b, c] = [b - a, c - b]`. -/
def diffs : List ℚ → List ℚ
  | a :: b :: rest => (b - a) :: diffs (b :: rest)
  | _ => []

/-- pandas `series.pct_change()` without its leading NaN:
consecutive relative changes `(cur - prev) / prev`.  (A zero previous
value yields ±inf or NaN in pandas; here it yields the ℚ convention 0 —
no claim in this development depends on that entry of the result.) -/
def pctChanges : List ℚ → List ℚ
  | a :: b :: rest => (b - a) / a :: pctChanges (b :: rest)
  | _ => []

/-- Arithmetic mean, `series.mean()` (0 on an empty list, which every use
below guards against). -/
def meanQ (vs : List ℚ) : ℚ := vs.sum / vs.length

/-- pandas `series.std()` (sample standard deviation, ddof = 1), squared to
stay in ℚ; `none` models the NaN returned for fewer than two samples. -/
def sampleVarQ (vs : List ℚ) : Option ℚ :=
  if 2 ≤ vs.length then
    some (((vs.map (fun v => (v - meanQ vs) ^ 2)).sum) / (vs.length - 1 : ℕ))
  else none

/-- The last `n` entries of a list (the final rolling window). -/
def lastN (n : ℕ) (l : List ℚ) : List ℚ := l.drop (l.length - n)

/-- `series.iloc[-1]` under a nonemptiness guard. -/
def lastD (l : List ℚ) : ℚ := l.getLastD 0

/- ## Data model: the quote/profile snapshot from the provider -/

/-- The `info` dict fields the core reads.  Every field is optional:
`none` models a key the provider omitted. -/
structure Info where
  trailingPE : Option ℚ := none
  trailingEps : Option ℚ := none
  debtToEquity : Option ℚ := none
  dividendYield : Option ℚ := none
  revenueGrowth : Option ℚ := none
  earningsGrowth : Option ℚ := none
  profitMargins : Option ℚ := none
  totalRevenue : Option ℚ := none
  sharesOutstanding : Option ℚ := none
  bookValue : Option ℚ := none
  sector : Option String := none
  deriving Repr, DecidableEq

/- ## src/recommendations.py : get_recommendation -/

/-- The human-readable factor attached to each scoring rule.  Constant
source strings are carried verbatim; the f-string factors that interpolate
a number are modelled by a constructor carrying that number (the decimal
formatting is presentation only). -/
inductive FactorNote where
  | txt (s : String)
  | oversold (r : ℚ)
  | overbought (r : ℚ)
  | rsiNeutral (r : ℚ)
  | attractiveYield (y : ℚ)
  | moderateYield (y : ℚ)
  | strongRevGrowth (g : ℚ)
  | declRevGrowth (g : ℚ)
  deriving Repr, DecidableEq

/-- The five recommendation buckets (source lines 109-123). -/
inductive Verdict where
  | strongBuy | buy | hold | weakSell | sell
  deriving Repr, DecidableEq

/-- The risk label (source lines 128-133). -/
inductive RiskLevel where
  | high | moderate | low
  deriving Repr, DecidableEq

/-- Factor 1, valuation by P/E (source lines 13-25): score contribution and
factor string. -/
def peFactor (info : Info) : ℤ × FactorNote :=
  let p := info.trailingPE.getD 0
  if p ≠ 0 then
    if p < 15 then (2, .txt "Undervalued (P/E < 15)")
    else if p < 25 then (1, .txt "Fairly valued (P/E 15-25)")
    else (-1, .txt "Overvalued (P/E > 25)")
  else (0, .txt "P/E data not available")

/-- The final value of `Close.rolling(w).mean()`: the mean of the last `w`
closes (defined whenever at least `w` closes exist, which every use below
guards). -/
def maLast (w : ℕ) (closes : List ℚ) : ℚ := (lastN w closes).sum / w

/-- Factor 2, price momentum (source lines 28-45).  The source guard is
`not hist_data.empty and len(hist_data) >= 50`; the length test subsumes
nonemptiness. -/
def momentumFactor (closes : List ℚ) : ℤ × FactorNote :=
  if 50 ≤ closes.length then
    if lastD closes > maLast 20 closes ∧ maLast 20 closes > maLast 50 closes then
      (2, .txt "Strong uptrend (above 20-day and 50-day MA)")
    else if lastD closes > maLast 20 closes then
      (1, .txt "Positive momentum (above 20-day MA)")
    else if lastD closes < maLast 50 closes then
      (-1, .txt "Weak momentum (below 50-day MA)")
    else (0, .txt "Neutral momentum")
  else (0, .txt "Insufficient data for momentum analysis")

/-- The clamped gain series `delta.where(delta > 0, 0)` (source line 50).
The leading NaN of `diff()` compares false against 0, so `where` replaces it by
0 — hence the leading `0 ::`. -/
def gainsOf (ds : List ℚ) : List ℚ := 0 :: ds.map (fun d => if 0 < d then d else 0)

/-- The clamped loss series `(-delta.where(delta < 0, 0))` (source line 51),
with the same clamped leading entry. -/
def lossesOf (ds : List ℚ) : List ℚ := 0 :: ds.map (fun d => if d < 0 then -d else 0)

/-- The last value of the RSI series (source lines 49-54), for a series of
at least 14 closes.  `rs = mean_gain / mean_loss` follows IEEE semantics in
the source: positive gain over zero loss is +inf, making RSI exactly 100,
and 0/0 is NaN, modelled as `none`. -/
def rsiLast (closes : List ℚ) : Option ℚ :=
  let g := (lastN 14 (gainsOf (diffs closes))).sum / 14
  let l := (lastN 14 (lossesOf (diffs closes))).sum / 14
  if l = 0 then (if g = 0 then none else some 100)
  else some (100 - 100 / (1 + g / l))

/-- Factor 3, RSI (source lines 48-68). -/
def rsiFactor (closes : List ℚ) : ℤ × FactorNote :=
  if 14 ≤ closes.length then
    match rsiLast closes with
    | some r =>
      if r < 30 then (1, .oversold r)
      else if r > 70 then (-1, .overbought r)
      else (0, .rsiNeutral r)
    | none => (0, .txt "RSI calculation not available")
  else (0, .txt "Insufficient data for RSI")

/-- Factor 4, financial health (source lines 71-82).  The source fetches
`info.get(debtToEquity, 0)` and branches on its truthiness, so a present
value of exactly 0 takes the unavailable branch. -/
def healthFactor (info : Info) : ℤ × FactorNote :=
  let d := info.debtToEquity.getD 0
  if d ≠ 0 then
    if d < 3/10 then (1, .txt "Strong balance sheet (low debt)")
    else if d > 1 then (-1, .txt "High debt levels")
    else (0, .txt "Moderate debt levels")
  else (0, .txt "Debt information not available")

/-- Factor 5, dividend yield (source lines 85-93). -/
def dividendFactor (info : Info) : ℤ × FactorNote :=
  let y := info.dividendYield.getD 0
  if y ≠ 0 then
    if y > 3/100 then (1, .attractiveYield y)
    else (0, .moderateYield y)
  else (0, .txt "No dividend or data not available")

/-- Factor 6, revenue growth (source lines 96-106; `earningsGrowth` is
fetched by the source but never used). -/
def growthFactor (info : Info) : ℤ × FactorNote :=
  let g := info.revenueGrowth.getD 0
  if g ≠ 0 ∧ g > 1/20 then (1, .strongRevGrowth g)
  else if g ≠ 0 ∧ g < 0 then (-1, .declRevGrowth g)
  else (0, .txt "Moderate or unknown revenue growth")

/-- The total recommendation score (source line 9 plus the six additive
rules). -/
def totalScore (info : Info) (closes : List ℚ) : ℤ :=
  (peFactor info).1 + (momentumFactor closes).1 + (rsiFactor closes).1 +
    (healthFactor info).1 + (dividendFactor info).1 + (growthFactor info).1

/-- The verdict thresholds (source lines 109-123). -/
def actionOf (s : ℤ) : Verdict :=
  if 4 ≤ s then .strongBuy
  else if 2 ≤ s then .buy
  else if 0 ≤ s then .hold
  else if -2 ≤ s then .weakSell
  else .sell

/-- The justification string attached to each bucket (source lines 109-123). -/
def reasonOf (s : ℤ) : String :=
  if 4 ≤ s then "Multiple positive indicators suggest strong upside potential"
  else if 2 ≤ s then "Overall positive outlook with good risk-reward ratio"
  else if 0 ≤ s then "Mixed signals suggest maintaining current position"
  else if -2 ≤ s then "Some concerning factors but not necessarily time to exit"
  else "Multiple negative indicators suggest significant downside risk"

/-- The squared annualized volatility (source line 126:
`pct_change().std() * sqrt(252)`, or 0 for an empty history).  Squaring
keeps the value rational; since the volatility is a nonnegative square
root, every threshold comparison below is equivalent to comparing this
square with the squared threshold.  `none` models the NaN standard
deviation of fewer than two returns. -/
def annualVolSq (closes : List ℚ) : Option ℚ :=
  if closes.isEmpty then some 0
  else (sampleVarQ (pctChanges closes)).map (fun v => v * 252)

/-- The risk label (source lines 128-133): volatility > 0.4 is High,
> 0.25 is Moderate, else Low.  On the squared scale the thresholds are
4/25 and 1/16; a NaN volatility compares false in both tests and lands on
Low. -/
def riskLevelOf (volSq : Option ℚ) : RiskLevel :=
  match volSq with
  | none => .low
  | some v => if v > 4/25 then .high else if v > 1/16 then .moderate else .low

/-- The result dict of `get_recommendation` (source lines 137-143). -/
structure RecResult where
  action : Verdict
  reason : String
  score : ℤ
  factors : List (String × FactorNote)
  riskVolSq : Option ℚ
  risk_level : RiskLevel
  deriving Repr, DecidableEq

/-- src/recommendations.py `get_recommendation` (lines 4-143), on the
closing-price series of the history. -/
def get_recommendation (info : Info) (closes : List ℚ) : RecResult :=
  let s := totalScore info closes
  { action := actionOf s
    reason := reasonOf s
    score := s
    factors :=
      [("Valuation (P/E)", (peFactor info).2),
       ("Price Momentum", (momentumFactor closes).2),
       ("Technical (RSI)", (rsiFactor closes).2),
       ("Financial Health", (healthFactor info).2),
       ("Dividend", (dividendFactor info).2),
       ("Revenue Growth", (growthFactor info).2)]
    riskVolSq := annualVolSq closes
    risk_level := riskLevelOf (annualVolSq closes) }

/- ## src/valuation.py -/

/-- The cash-flow statement DataFrame: named line items, each a list of
column values most-recent first; a NaN cell is `none`. -/
structure CashFlow where
  rows : List (String × List (Option ℚ))
  deriving Repr, DecidableEq

/-- `cash_flow.loc[key]` guarded by `key in cash_flow.index`. -/
def CashFlow.lookupRow (cf : CashFlow) (key : String) : Option (List (Option ℚ)) :=
  (cf.rows.find? (fun p => p.1 == key)).map (fun p => p.2)

/-- Lines 16-27 of src/valuation.py: the most recent free cash flow, or its
operating-cash-flow approximation.  `none` covers: neither line present, a
NaN leading cell, or an `iloc[0]` on an empty line (an IndexError the
except clause of the source turns into `None`). -/
def recentFcfOf (cash_flow : CashFlow) (info : Info) : Option ℚ :=
  match cash_flow.lookupRow "Free Cash Flow" with
  | some vals =>
    match vals with
    | [] => none
    | v :: _ => v
  | none =>
    match cash_flow.lookupRow "Operating Cash Flow" with
    | some vals =>
      match vals with
      | [] => none
      | v :: _ =>
        v.map (fun ocf =>
          let revenue := info.totalRevenue.getD 0
          let capex := if revenue ≠ 0 then revenue * (1/20) else 0
          ocf - capex)
    | none => none

/-- Lines 37-51 of src/valuation.py: the enterprise value for a given
most-recent free cash flow (growth 5%, discount 10%, terminal growth 2%). -/
def dcf_enterprise_value (recent_fcf : ℚ) : ℚ :=
  let terminal_fcf := recent_fcf * (1 + 1/20) ^ 5 * (1 + 1/50)
  let terminal_value := terminal_fcf / (1/10 - 1/50)
  let pv_fcf := ((List.range 5).map
    (fun y => recent_fcf * (1 + 1/20) ^ (y + 1) / (1 + 1/10) ^ (y + 1))).sum
  pv_fcf + terminal_value / (1 + 1/10) ^ 5

/-- src/valuation.py `calculate_dcf_value` (lines 5-64). -/
def calculate_dcf_value (cash_flow : CashFlow) (info : Info) : Option ℚ :=
  if cash_flow.rows.isEmpty then none
  else
    match recentFcfOf cash_flow info with
    | none => none
    | some recent_fcf =>
      if recent_fcf ≤ 0 then none
      else
        let shares := info.sharesOutstanding.getD 0
        if shares = 0 then none
        else some (dcf_enterprise_value recent_fcf / shares)

/-- The fixed sector benchmark table (src/valuation.py lines 83-95). -/
def sector_pe_estimates : List (String × ℚ) :=
  [("Technology", 25), ("Healthcare", 20), ("Financial Services", 12),
   ("Consumer Cyclical", 18), ("Consumer Defensive", 22), ("Energy", 15),
   ("Utilities", 16), ("Real Estate", 20), ("Materials", 16),
   ("Industrials", 18), ("Communication Services", 20)]

/-- Lines 97-98 of src/valuation.py: `info.get(sector, Technology)`
then `sector_pe_estimates.get(sector, 20)`. -/
def benchmarkPE (sector : Option String) : ℚ :=
  (sector_pe_estimates.lookup (sector.getD "Technology")).getD 20

/-- src/valuation.py `calculate_pe_valuation` (lines 66-106). -/
def calculate_pe_valuation (info : Info) : Option ℚ :=
  let eps := info.trailingEps.getD 0
  if eps = 0 ∨ eps ≤ 0 then none
  else
    let current_pe := info.trailingPE.getD 0
    if current_pe = 0 then none
    else some (eps * benchmarkPE info.sector)

/- ## src/company_search.py : CompanySearcher -/

namespace CompanySearcher

/-- The Indian (domestic) name → symbol table (source lines 13-93), in
dict insertion order.  The source assigns the key `wipro` twice with the
same value; a Python dict keeps the first position, so it appears once
here. -/
def indian_companies : List (String × String) :=
  [("tcs", "TCS.NS"),
   ("tata consultancy services", "TCS.NS"),
   ("infosys", "INFY.NS"),
   ("wipro", "WIPRO.NS"),
   ("hcl technologies", "HCLTECH.NS"),
   ("tech mahindra", "TECHM.NS"),
   ("hdfc bank", "HDFCBANK.NS"),
   ("icici bank", "ICICIBANK.NS"),
   ("state bank of india", "SBIN.NS"),
   ("sbi", "SBIN.NS"),
   ("axis bank", "AXISBANK.NS"),
   ("kotak mahindra bank", "KOTAKBANK.NS"),
   ("bajaj finance", "BAJFINANCE.NS"),
   ("hdfc", "HDFC.NS"),
   ("tata motors", "TATAMOTORS.NS"),
   ("maruti suzuki", "MARUTI.NS"),
   ("mahindra", "M&M.NS"),
   ("bajaj auto", "BAJAJ-AUTO.NS"),
   ("hero motocorp", "HEROMOTOCO.NS"),
   ("tvs motor", "TVSMOTOR.NS"),
   ("sun pharma", "SUNPHARMA.NS"),
   ("dr reddy", "DRREDDY.NS"),
   ("cipla", "CIPLA.NS"),
   ("lupin", "LUPIN.NS"),
   ("aurobindo pharma", "AUROPHARMA.NS"),
   ("divi\x27s laboratories", "DIVISLAB.NS"),
   ("reliance", "RELIANCE.NS"),
   ("reliance industries", "RELIANCE.NS"),
   ("oil and natural gas corporation", "ONGC.NS"),
   ("ongc", "ONGC.NS"),
   ("indian oil", "IOC.NS"),
   ("bharat petroleum", "BPCL.NS"),
   ("hindustan petroleum", "HINDPETRO.NS"),
   ("tata steel", "TATASTEEL.NS"),
   ("jsw steel", "JSWSTEEL.NS"),
   ("hindalco", "HINDALCO.NS"),
   ("vedanta", "VEDL.NS"),
   ("coal india", "COALINDIA.NS"),
   ("nmdc", "NMDC.NS"),
   ("hindustan unilever", "HINDUNILVR.NS"),
   ("hul", "HINDUNILVR.NS"),
   ("itc", "ITC.NS"),
   ("nestle india", "NESTLEIND.NS"),
   ("britannia", "BRITANNIA.NS"),
   ("godrej consumer", "GODREJCP.NS"),
   ("bharti airtel", "BHARTIARTL.NS"),
   ("airtel", "BHARTIARTL.NS"),
   ("vodafone idea", "IDEA.NS"),
   ("jio", "RJIO.NS"),
   ("ntpc", "NTPC.NS"),
   ("power grid", "POWERGRID.NS"),
   ("larsen toubro", "LT.NS"),
   ("l&t", "LT.NS"),
   ("ultratech cement", "ULTRACEMCO.NS"),
   ("grasim", "GRASIM.NS"),
   ("adani enterprises", "ADANIENT.NS"),
   ("asian paints", "ASIANPAINT.NS"),
   ("bajaj finserv", "BAJAJFINSV.NS"),
   ("titan", "TITAN.NS")]

/-- The US (secondary) name → symbol table (source lines 96-133). -/
def us_companies : List (String × String) :=
  [("apple", "AAPL"),
   ("microsoft", "MSFT"),
   ("google", "GOOGL"),
   ("alphabet", "GOOGL"),
   ("amazon", "AMZN"),
   ("tesla", "TSLA"),
   ("meta", "META"),
   ("facebook", "META"),
   ("netflix", "NFLX"),
   ("nvidia", "NVDA"),
   ("intel", "INTC"),
   ("amd", "AMD"),
   ("oracle", "ORCL"),
   ("salesforce", "CRM"),
   ("adobe", "ADBE"),
   ("paypal", "PYPL"),
   ("visa", "V"),
   ("mastercard", "MA"),
   ("jpmorgan", "JPM"),
   ("jp morgan", "JPM"),
   ("bank of america", "BAC"),
   ("wells fargo", "WFC"),
   ("goldman sachs", "GS"),
   ("morgan stanley", "MS"),
   ("berkshire hathaway", "BRK-B"),
   ("johnson & johnson", "JNJ"),
   ("pfizer", "PFE"),
   ("coca cola", "KO"),
   ("pepsi", "PEP"),
   ("walmart", "WMT"),
   ("home depot", "HD"),
   ("disney", "DIS"),
   ("boeing", "BA"),
   ("caterpillar", "CAT"),
   ("exxon mobil", "XOM"),
   ("chevron", "CVX")]

/-- The exchange suffixes probed in order (source line 10). -/
def indian_exchanges : List String := [".NS", ".BO"]

/-- The bidirectional bidirectional containment pass (source lines 154-161): the first
table entry, in iteration order, whose name contains the query or is
contained in it. -/
def substrScan (table : List (String × String)) (queryLower : String) :
    Option String :=
  (table.find? (fun p => strHasSub p.1 queryLower || strHasSub queryLower p.1)).map
    (fun p => p.2)

/-- The suffix-probing pass (source lines 164-167): the first exchange
suffix whose appended symbol the validity oracle accepts. -/
def probeWithSuffixes (valid : String → Bool) (up : String) : Option String :=
  (indian_exchanges.find? (fun e => valid (up ++ e))).map (fun e => up ++ e)

/-- src/company_search.py `search_company` (lines 135-170).  The network
probe `_is_valid_symbol` is the oracle parameter `valid`. -/
def search_company (valid : String → Bool) (query : String) : String :=
  if valid (strUpper query) then strUpper query
  else match indian_companies.lookup (strStrip (strLower query)) with
  | some s => s
  | none => match us_companies.lookup (strStrip (strLower query)) with
    | some s => s
    | none => match substrScan indian_companies (strStrip (strLower query)) with
      | some s => s
      | none => match substrScan us_companies (strStrip (strLower query)) with
        | some s => s
        | none => match probeWithSuffixes valid (strUpper query) with
          | some s => s
          | none => strUpper query

/-- Modelled from the words of the claim, for the refinement comparison: apply
branches in order with first match winning — valid uppercase probe, exact
case-insensitive table match (domestic then secondary), bidirectional
substring match in table iteration order (domestic then secondary), suffix
probing, and finally the uppercased raw query verbatim. -/
def resolveSpec (valid : String → Bool) (query : String) : String :=
  if valid (strUpper query) then strUpper query
  else
    (indian_companies.lookup (strStrip (strLower query))).getD
      ((us_companies.lookup (strStrip (strLower query))).getD
        ((substrScan indian_companies (strStrip (strLower query))).getD
          ((substrScan us_companies (strStrip (strLower query))).getD
            ((probeWithSuffixes valid (strUpper query)).getD (strUpper query)))))

end CompanySearcher

/- ## src/company_search.py : ProfitCompoundingAnalyzer -/

/-- A financial-statement line: (period-end date, value) pairs in column
order, most recent first; a NaN cell is `none`. -/
abbrev StmtRow := List (ℕ × Option ℚ)

/-- A financial-statement DataFrame: named lines.  `[]` models
`DataFrame.empty`. -/
abbrev StmtTable := List (String × StmtRow)

/-- `table.loc[key]` guarded by `key in table.index`. -/
def stmtRowOf (table : StmtTable) (key : String) : Option StmtRow :=
  (table.find? (fun p => p.1 == key)).map (fun p => p.2)

/-- `series.dropna()`. -/
def dropnaRow (r : StmtRow) : List (ℕ × ℚ) :=
  r.filterMap (fun p => p.2.map (fun v => (p.1, v)))

/-- The alias-list pattern of the source (`for key in keys: if key in
table.index: ... break`): the first present line, `dropna`-ed. -/
def firstAliasRow (keys : List String) (table : StmtTable) :
    Option (List (ℕ × ℚ)) :=
  match keys with
  | [] => none
  | k :: ks =>
    match stmtRowOf table k with
    | some r => some (dropnaRow r)
    | none => firstAliasRow ks table

/-- The net-income alias list (source line 257). -/
def net_income_keys : List String :=
  ["Net Income", "Net Income Common Stockholders",
   "Net Income Applicable To Common Shares"]

/-- The stockholders-equity alias list (source line 286). -/
def stockholder_equity_keys : List String :=
  ["Stockholders Equity", "Total Stockholder Equity", "Total Equity"]

/-- The retained-earnings alias list (source line 322). -/
def retained_earnings_keys : List String :=
  ["Retained Earnings", "Accumulated Retained Earnings"]

/-- The factor strings of the compounding analyzer; the two f-strings that
interpolate a number carry it as data. -/
inductive CompNote where
  | txt (s : String)
  | strongRevenueGrowth (g : ℚ)
  | excellentProfitGrowth (g : ℚ)
  | highROE (r : ℚ)
  deriving Repr, DecidableEq

/-- The outcome of one scoring section: score contribution, the metric it
stores, and the factor/warning strings it appends. -/
structure SectionOut where
  score : ℤ
  metric : Option ℚ
  factors : List CompNote
  warnings : List String
  deriving Repr, DecidableEq

/-- Section 1, revenue growth (source lines 240-254). -/
def revenue_section (financials : StmtTable) : SectionOut :=
  match stmtRowOf financials "Total Revenue" with
  | none => ⟨0, none, [], []⟩
  | some row =>
    let revenues := dropnaRow row
    if 3 ≤ revenues.length then
      let g := meanQ (pctChanges (revenues.map (fun p => p.2)))
      if g > 1/20 then ⟨2, some (g * 100), [.strongRevenueGrowth (g * 100)], []⟩
      else if g > 0 then ⟨1, some (g * 100), [.txt "Positive revenue growth"], []⟩
      else ⟨0, some (g * 100), [], ["Declining revenue trend"]⟩
    else ⟨0, none, [], []⟩

/-- Section 2, net-income growth (source lines 265-280), on the already
looked-up net-income line. -/
def profit_section (net_income : Option (List (ℕ × ℚ))) : SectionOut :=
  match net_income with
  | some vals =>
    if 3 ≤ vals.length then
      let g := meanQ (pctChanges (vals.map (fun p => p.2)))
      if g > 1/10 then ⟨3, some (g * 100), [.excellentProfitGrowth (g * 100)], []⟩
      else if g > 1/20 then ⟨2, some (g * 100), [.txt "Good profit growth"], []⟩
      else if g > 0 then ⟨1, some (g * 100), [.txt "Moderate profit growth"], []⟩
      else ⟨0, some (g * 100), [], ["Declining profitability"]⟩
    else ⟨0, none, [], []⟩
  | none => ⟨0, none, [], []⟩

/-- Section 3, return on equity (source lines 283-317): per-period ROE over
the dates common to the equity and net-income lines (equity-positive
periods only), averaged. -/
def roe_section (balance_sheet : StmtTable)
    (net_income : Option (List (ℕ × ℚ))) : SectionOut :=
  if balance_sheet.isEmpty then ⟨0, none, [], []⟩
  else
    match firstAliasRow stockholder_equity_keys balance_sheet, net_income with
    | some se, some ni =>
      let common := se.filter (fun p => (ni.lookup p.1).isSome)
      if 2 ≤ common.length then
        let roes := common.filterMap (fun p =>
          if p.2 > 0 then some ((ni.lookup p.1).getD 0 / p.2 * 100) else none)
        if roes.isEmpty then ⟨0, none, [], []⟩
        else
          let avg := roes.sum / roes.length
          if avg > 15 then ⟨2, some avg, [.highROE avg], []⟩
          else if avg > 10 then ⟨1, some avg, [.txt "Good ROE"], []⟩
          else if avg < 5 then ⟨0, some avg, [], ["Low return on equity"]⟩
          else ⟨0, some avg, [], []⟩
      else ⟨0, none, [], []⟩
    | _, _ => ⟨0, none, [], []⟩

/-- Section 4, retained-earnings growth (source lines 320-338): the first
present alias only, and only when it keeps at least 3 points. -/
def retained_section (balance_sheet : StmtTable) : SectionOut :=
  if balance_sheet.isEmpty then ⟨0, none, [], []⟩
  else
    match firstAliasRow retained_earnings_keys balance_sheet with
    | some re =>
      if 3 ≤ re.length then
        let g := meanQ (pctChanges (re.map (fun p => p.2)))
        if g > 1/20 then ⟨1, some (g * 100), [.txt "Growing retained earnings"], []⟩
        else if g < 0 then ⟨0, some (g * 100), [], ["Declining retained earnings"]⟩
        else ⟨0, some (g * 100), [], []⟩
      else ⟨0, none, [], []⟩
    | none => ⟨0, none, [], []⟩

/-- Section 5, debt management (source lines 341-348): truthiness on
`info.get(debtToEquity, 0)`. -/
def debt_section (info : Info) : SectionOut :=
  let d := info.debtToEquity.getD 0
  if d ≠ 0 then
    if d < 3/10 then ⟨1, some d, [.txt "Conservative debt management"], []⟩
    else if d > 1 then ⟨0, some d, [], ["High debt levels may limit growth"]⟩
    else ⟨0, some d, [], []⟩
  else ⟨0, none, [], []⟩

/-- Section 6, efficiency (source lines 351-356): profit margin. -/
def margin_section (info : Info) : SectionOut :=
  let m := info.profitMargins.getD 0
  if m ≠ 0 then
    if m > 3/20 then ⟨1, some (m * 100), [.txt "High profit margins"], []⟩
    else ⟨0, some (m * 100), [], []⟩
  else ⟨0, none, [], []⟩

/-- The analysis dict built by `analyze_profit_compounding` (source lines
226-237): `is_compounding` is tri-state (`none` = unknown). -/
structure CompAnalysis where
  is_compounding : Option Bool
  compounding_score : ℤ
  revenue_growth : Option ℚ
  profit_growth : Option ℚ
  roe_trend : Option ℚ
  retained_earnings_growth : Option ℚ
  debt_management : Option ℚ
  efficiency_profit_margin : Option ℚ
  compounding_factors : List CompNote
  warnings : List String
  deriving Repr, DecidableEq

/-- `ProfitCompoundingAnalyzer._get_fallback_analysis` (source lines
367-380). -/
def get_fallback_analysis : CompAnalysis :=
  { is_compounding := none
    compounding_score := 0
    revenue_growth := none
    profit_growth := none
    roe_trend := none
    retained_earnings_growth := none
    debt_management := none
    efficiency_profit_margin := none
    compounding_factors := []
    warnings := ["Insufficient financial data for compounding analysis"] }

/-- `ProfitCompoundingAnalyzer.analyze_profit_compounding` (source lines
214-365). -/
def analyze_profit_compounding (financials balance_sheet : StmtTable)
    (info : Info) : CompAnalysis :=
  if financials.isEmpty then get_fallback_analysis
  else
    let net_income := firstAliasRow net_income_keys financials
    let r1 := revenue_section financials
    let r2 := profit_section net_income
    let r3 := roe_section balance_sheet net_income
    let r4 := retained_section balance_sheet
    let r5 := debt_section info
    let r6 := margin_section info
    let score := r1.score + r2.score + r3.score + r4.score + r5.score + r6.score
    { is_compounding := some (decide (5 ≤ score))
      compounding_score := score
      revenue_growth := r1.metric
      profit_growth := r2.metric
      roe_trend := r3.metric
      retained_earnings_growth := r4.metric
      debt_management := r5.metric
      efficiency_profit_margin := r6.metric
      compounding_factors :=
        r1.factors ++ r2.factors ++ r3.factors ++ r4.factors ++ r5.factors ++ r6.factors
      warnings :=
        r1.warnings ++ r2.warnings ++ r3.warnings ++ r4.warnings ++ r5.warnings ++ r6.warnings }

/- ## Theorems -/

/-- C10: for every profile, an empty price history makes the annualized
volatility 0 and the risk assessment report the Low risk label. -/
theorem empty_history_low_risk (info : Info) :
    (get_recommendation info []).riskVolSq = some 0 ∧
      (get_recommendation info []).risk_level = RiskLevel.low := by
  refine ⟨rfl, ?_⟩
  show riskLevelOf (annualVolSq []) = RiskLevel.low
  norm_num [annualVolSq, riskLevelOf]

/-- C5 counterexample: the P/E rule as claimed fails on the code.  At a
trailing P/E of exactly 25 the source takes the `P/E > 25` branch (−1,
"Overvalued"), not the claimed +1 "Fairly valued"; and at a present
trailing P/E of exactly 0 (which is < 15) the truthiness test of the source
takes the unavailable branch, not the claimed +2 "Undervalued". -/
theorem pe_rule_cex :
    peFactor { trailingPE := some 25 } ≠ (1, .txt "Fairly valued (P/E 15-25)") ∧
      peFactor { trailingPE := some 25 } = (-1, .txt "Overvalued (P/E > 25)") ∧
      peFactor { trailingPE := some 0 } ≠ (2, .txt "Undervalued (P/E < 15)") ∧
      peFactor { trailingPE := some 0 } = (0, .txt "P/E data not available") := by
  refine ⟨by decide, by decide, by decide, by decide⟩

/-- C5 amended: the P/E rule contributes +2 "Undervalued" when a present,
nonzero trailing P/E is < 15; +1 "Fairly valued" when 15 ≤ P/E < 25; −1
"Overvalued" when P/E ≥ 25; and 0 with the unavailable note when the field
is absent or zero. -/
theorem pe_rule_amended :
    (∀ (info : Info) (p : ℚ), info.trailingPE = some p →
      (p ≠ 0 ∧ p < 15 → peFactor info = (2, .txt "Undervalued (P/E < 15)")) ∧
      (15 ≤ p ∧ p < 25 → peFactor info = (1, .txt "Fairly valued (P/E 15-25)")) ∧
      (25 ≤ p → peFactor info = (-1, .txt "Overvalued (P/E > 25)"))) ∧
    (∀ info : Info, info.trailingPE = none ∨ info.trailingPE = some 0 →
      peFactor info = (0, .txt "P/E data not available")) ∧
    peFactor { trailingPE := some 12 } = (2, .txt "Undervalued (P/E < 15)") ∧
    peFactor { trailingPE := some 20 } = (1, .txt "Fairly valued (P/E 15-25)") ∧
    peFactor { trailingPE := some 30 } = (-1, .txt "Overvalued (P/E > 25)") ∧
    peFactor {} = (0, .txt "P/E data not available") := by
  refine ⟨?_, ?_, by decide, by decide, by decide, by decide⟩
  · intro info p hp
    refine ⟨fun ⟨h0, h15⟩ => ?_, fun ⟨h15, h25⟩ => ?_, fun h25 => ?_⟩ <;>
      simp only [peFactor, hp, Option.getD_some]
    · rw [if_pos h0, if_pos h15]
    · rw [if_pos (by intro h; rw [h] at h15; norm_num at h15),
        if_neg (by linarith), if_pos h25]
    · rw [if_pos (by intro h; rw [h] at h25; norm_num at h25),
        if_neg (by linarith), if_neg (by linarith)]
  · rintro info (h | h) <;> simp [peFactor, h]

/-- C6 counterexample: a present debt-to-equity of exactly 0 (< 0.3) does
not contribute +1; the truthiness test of the source conflates it with absence
and takes the unavailable branch. -/
theorem leverage_rule_cex :
    healthFactor { debtToEquity := some 0 } ≠ (1, .txt "Strong balance sheet (low debt)") ∧
      healthFactor { debtToEquity := some 0 } = (0, .txt "Debt information not available") := by
  refine ⟨by decide, by decide⟩

/-- C6 amended: for a present, nonzero debt-to-equity the leverage rule
contributes +1 when < 0.3, −1 when > 1.0, and 0 otherwise; when the field
is absent or zero it contributes 0 with the unavailable note. -/
theorem leverage_rule_amended :
    (∀ (info : Info) (d : ℚ), info.debtToEquity = some d → d ≠ 0 →
      (d < 3/10 → healthFactor info = (1, .txt "Strong balance sheet (low debt)")) ∧
      (d > 1 → healthFactor info = (-1, .txt "High debt levels")) ∧
      (3/10 ≤ d ∧ d ≤ 1 → healthFactor info = (0, .txt "Moderate debt levels"))) ∧
    (∀ info : Info, info.debtToEquity = none ∨ info.debtToEquity = some 0 →
      healthFactor info = (0, .txt "Debt information not available")) ∧
    healthFactor { debtToEquity := some (1/5) } = (1, .txt "Strong balance sheet (low debt)") ∧
    healthFactor { debtToEquity := some 2 } = (-1, .txt "High debt levels") ∧
    healthFactor { debtToEquity := some (1/2) } = (0, .txt "Moderate debt levels") ∧
    healthFactor {} = (0, .txt "Debt information not available") := by
  refine ⟨?_, ?_, by norm_num [healthFactor], by norm_num [healthFactor],
    by norm_num [healthFactor], by norm_num [healthFactor]⟩
  · intro info d hd h0
    refine ⟨fun h => ?_, fun h => ?_, fun ⟨h1, h2⟩ => ?_⟩ <;>
      simp only [healthFactor, hd, Option.getD_some]
    · rw [if_pos h0, if_pos h]
    · rw [if_pos h0, if_neg (by linarith), if_pos h]
    · rw [if_pos h0, if_neg (by linarith), if_neg (by linarith)]
  · rintro info (h | h) <;> simp [healthFactor, h]

/-- C7 counterexample: the claim fails on the code in two places.  With
EPS = 2, trailing P/E = 10 and an absent sector field, the source defaults
the sector to "Technology" and uses its benchmark 25, returning 50 rather
than the claimed 2 × 20 = 40.  And with a present trailing P/E of exactly
0 (not absent), the truthiness gate returns unknown although the claim
says the result is unknown only when the P/E is absent. -/
theorem pe_valuation_cex :
    calculate_pe_valuation { trailingEps := some 2, trailingPE := some 10 } ≠ some 40 ∧
    calculate_pe_valuation { trailingEps := some 2, trailingPE := some 10 } = some 50 ∧
    calculate_pe_valuation
        { trailingEps := some 2, trailingPE := some 0, sector := some "Energy" } ≠ some 30 ∧
    calculate_pe_valuation
        { trailingEps := some 2, trailingPE := some 0, sector := some "Energy" } = none := by
  have ht : benchmarkPE none = 25 := rfl
  refine ⟨by norm_num [calculate_pe_valuation, ht], by norm_num [calculate_pe_valuation, ht],
    ?_, by norm_num [calculate_pe_valuation, ht]⟩
  norm_num [calculate_pe_valuation]
  simp

/-- C7 amended: with a positive trailing EPS and a present nonzero trailing
P/E, the fair value is EPS × the sector benchmark, where an absent sector
defaults to the Technology benchmark 25 and a present sector not in the
11-entry table gets 20; the result is unknown exactly when the EPS
(defaulted to 0) is non-positive or the trailing P/E (defaulted to 0) is
zero. -/
theorem pe_valuation_amended :
    (∀ (info : Info) (eps pe : ℚ), info.trailingEps = some eps → 0 < eps →
      info.trailingPE = some pe → pe ≠ 0 →
      calculate_pe_valuation info = some (eps * benchmarkPE info.sector)) ∧
    (∀ info : Info,
      (calculate_pe_valuation info = none ↔
        (info.trailingEps.getD 0 ≤ 0 ∨ info.trailingPE.getD 0 = 0))) ∧
    benchmarkPE none = 25 ∧
    (∀ s : String, sector_pe_estimates.lookup s = none → benchmarkPE (some s) = 20) ∧
    calculate_pe_valuation
        { trailingEps := some 2, trailingPE := some 10, sector := some "Energy" } = some 30 ∧
    calculate_pe_valuation
        { trailingEps := some 2, trailingPE := some 10, sector := some "Unlisted" } = some 40 ∧
    calculate_pe_valuation { trailingEps := some 2, trailingPE := some 10 } = some 50 := by
  have he : benchmarkPE (some "Energy") = 15 := rfl
  have hu : benchmarkPE (some "Unlisted") = 20 := rfl
  have ht : benchmarkPE none = 25 := rfl
  refine ⟨?_, ?_, ht, ?_,
    by norm_num [calculate_pe_valuation, he],
    by norm_num [calculate_pe_valuation, hu],
    by norm_num [calculate_pe_valuation, ht]⟩
  · intro info eps pe heps hpos hpe hne
    simp only [calculate_pe_valuation, heps, hpe, Option.getD_some]
    rw [if_neg (by push_neg; exact ⟨by linarith, by linarith⟩), if_neg hne]
  · intro info
    simp only [calculate_pe_valuation]
    constructor
    · intro h
      by_cases h1 : info.trailingEps.getD 0 = 0 ∨ info.trailingEps.getD 0 ≤ 0
      · rcases h1 with h1 | h1
        · exact Or.inl (le_of_eq h1)
        · exact Or.inl h1
      · rw [if_neg h1] at h
        by_cases h2 : info.trailingPE.getD 0 = 0
        · exact Or.inr h2
        · rw [if_neg h2] at h
          exact absurd h (by simp)
    · intro h
      rcases h with h | h
      · rw [if_pos (Or.inr h)]
      · by_cases h1 : info.trailingEps.getD 0 = 0 ∨ info.trailingEps.getD 0 ≤ 0
        · rw [if_pos h1]
        · rw [if_neg h1, if_pos h]
  · intro s hs
    simp [benchmarkPE, hs]

/-- C9: symbol resolution is total and matches the claimed branch cascade
(valid uppercase probe; exact case-insensitive domestic then secondary
match; bidirectional substring match in table iteration order; suffix
probing; uppercased raw fallback).  With a failing validity oracle, "tcs"
resolves to "TCS.NS" by exact match and "tata consultancy" resolves to
"TCS.NS" by substring match against "tata consultancy services"; an
unmatched query falls back to its uppercase. -/
theorem search_company_spec :
    (∀ (valid : String → Bool) (query : String),
      CompanySearcher.search_company valid query =
        CompanySearcher.resolveSpec valid query) ∧
    (∀ (valid : String → Bool) (query : String), valid (strUpper query) = true →
      CompanySearcher.search_company valid query = strUpper query) ∧
    CompanySearcher.search_company (fun _ => false) "tcs" = "TCS.NS" ∧
    CompanySearcher.search_company (fun _ => false) "tata consultancy" = "TCS.NS" ∧
    CompanySearcher.search_company (fun _ => false) "zzq xy" = "ZZQ XY" := by
  refine ⟨?_, ?_, by decide, by decide, by decide⟩
  · intro valid query
    unfold CompanySearcher.search_company CompanySearcher.resolveSpec
    cases valid (strUpper query)
    · simp only [Bool.false_eq_true, if_false]
      cases CompanySearcher.indian_companies.lookup (strStrip (strLower query)) <;>
        [skip; rfl]
      cases CompanySearcher.us_companies.lookup (strStrip (strLower query)) <;>
        [skip; rfl]
      cases CompanySearcher.substrScan CompanySearcher.indian_companies
          (strStrip (strLower query)) <;> [skip; rfl]
      cases CompanySearcher.substrScan CompanySearcher.us_companies
          (strStrip (strLower query)) <;> [skip; rfl]
      cases CompanySearcher.probeWithSuffixes valid (strUpper query) <;> rfl
    · rfl
  · intro valid query h
    unfold CompanySearcher.search_company
    rw [h]
    rfl

/-- The revenue section contributes between 0 and 2. -/
theorem revenue_section_bounds (f : StmtTable) :
    0 ≤ (revenue_section f).score ∧ (revenue_section f).score ≤ 2 := by
  unfold revenue_section
  cases stmtRowOf f "Total Revenue" with
  | none => exact ⟨le_refl 0, by norm_num⟩
  | some row =>
    dsimp only
    split_ifs <;> simp

/-- The profit section contributes between 0 and 3. -/
theorem profit_section_bounds (ni : Option (List (ℕ × ℚ))) :
    0 ≤ (profit_section ni).score ∧ (profit_section ni).score ≤ 3 := by
  unfold profit_section
  cases ni with
  | none => exact ⟨le_refl 0, by norm_num⟩
  | some vals =>
    dsimp only
    split_ifs <;> simp

/-- The ROE section contributes between 0 and 2. -/
theorem roe_section_bounds (b : StmtTable) (ni : Option (List (ℕ × ℚ))) :
    0 ≤ (roe_section b ni).score ∧ (roe_section b ni).score ≤ 2 := by
  unfold roe_section
  split_ifs with h
  · simp
  · cases firstAliasRow stockholder_equity_keys b with
    | none => cases ni <;> simp
    | some se =>
      cases ni with
      | none => simp
      | some niv =>
        dsimp only
        split_ifs <;> simp

/-- The retained-earnings section contributes 0 or 1. -/
theorem retained_section_bounds (b : StmtTable) :
    0 ≤ (retained_section b).score ∧ (retained_section b).score ≤ 1 := by
  unfold retained_section
  split_ifs with h
  · simp
  · cases firstAliasRow retained_earnings_keys b with
    | none => simp
    | some re =>
      dsimp only
      split_ifs <;> simp

/-- The debt section contributes 0 or 1. -/
theorem debt_section_bounds (info : Info) :
    0 ≤ (debt_section info).score ∧ (debt_section info).score ≤ 1 := by
  unfold debt_section
  dsimp only
  split_ifs <;> simp

/-- The margin section contributes 0 or 1. -/
theorem margin_section_bounds (info : Info) :
    0 ≤ (margin_section info).score ∧ (margin_section info).score ≤ 1 := by
  unfold margin_section
  dsimp only
  split_ifs <;> simp

/-- C1: the compounding score always lies in [0, 10]; the verdict is true
exactly when statements were available and the score reached 5; the
verdict is unknown exactly when the financial statements are empty; and on
empty statements the result is the fallback analysis — score 0, all
metrics unknown, no factors, and the single warning "Insufficient
financial data for compounding analysis". -/
theorem compounding_analyzer_claims :
    (∀ (fin bal : StmtTable) (info : Info),
      0 ≤ (analyze_profit_compounding fin bal info).compounding_score ∧
        (analyze_profit_compounding fin bal info).compounding_score ≤ 10) ∧
    (∀ (fin bal : StmtTable) (info : Info),
      (analyze_profit_compounding fin bal info).is_compounding = some true ↔
        (fin ≠ [] ∧ 5 ≤ (analyze_profit_compounding fin bal info).compounding_score)) ∧
    (∀ (fin bal : StmtTable) (info : Info),
      (analyze_profit_compounding fin bal info).is_compounding = none ↔ fin = []) ∧
    (∀ (bal : StmtTable) (info : Info),
      analyze_profit_compounding [] bal info = get_fallback_analysis) ∧
    get_fallback_analysis =
      { is_compounding := none, compounding_score := 0, revenue_growth := none,
        profit_growth := none, roe_trend := none, retained_earnings_growth := none,
        debt_management := none, efficiency_profit_margin := none,
        compounding_factors := [],
        warnings := ["Insufficient financial data for compounding analysis"] } := by
  have hscore : ∀ (fin bal : StmtTable) (info : Info), fin ≠ [] →
      (analyze_profit_compounding fin bal info).compounding_score =
        (revenue_section fin).score +
          (profit_section (firstAliasRow net_income_keys fin)).score +
          (roe_section bal (firstAliasRow net_income_keys fin)).score +
          (retained_section bal).score + (debt_section info).score +
          (margin_section info).score := by
    intro fin bal info hne
    unfold analyze_profit_compounding
    rw [if_neg (by simpa using hne)]
  refine ⟨?_, ?_, ?_, fun bal info => rfl, rfl⟩
  · intro fin bal info
    rcases eq_or_ne fin [] with h | h
    · subst h; exact ⟨le_refl 0, by norm_num [analyze_profit_compounding, get_fallback_analysis]⟩
    · rw [hscore fin bal info h]
      have h1 := revenue_section_bounds fin
      have h2 := profit_section_bounds (firstAliasRow net_income_keys fin)
      have h3 := roe_section_bounds bal (firstAliasRow net_income_keys fin)
      have h4 := retained_section_bounds bal
      have h5 := debt_section_bounds info
      have h6 := margin_section_bounds info
      constructor <;> linarith [h1.1, h1.2, h2.1, h2.2, h3.1, h3.2, h4.1, h4.2,
        h5.1, h5.2, h6.1, h6.2]
  · intro fin bal info
    rcases eq_or_ne fin [] with h | h
    · subst h
      simp [analyze_profit_compounding, get_fallback_analysis]
    · have hic : (analyze_profit_compounding fin bal info).is_compounding =
          some (decide (5 ≤ (analyze_profit_compounding fin bal info).compounding_score)) := by
        rw [hscore fin bal info h]
        unfold analyze_profit_compounding
        rw [if_neg (by simpa using h)]
      rw [hic]
      simp [h, decide_eq_true_iff]
  · intro fin bal info
    rcases eq_or_ne fin [] with h | h
    · subst h
      simp [analyze_profit_compounding, get_fallback_analysis]
    · have hic : (analyze_profit_compounding fin bal info).is_compounding =
          some (decide (5 ≤ (analyze_profit_compounding fin bal info).compounding_score)) := by
        rw [hscore fin bal info h]
        unfold analyze_profit_compounding
        rw [if_neg (by simpa using h)]
      rw [hic]
      simp [h]

/-- The deltas inside the final 14-period rolling window (all of them when
the series has 14 bars, since `diff` then supplies only 13 real deltas
plus the clamped leading entry). -/
def windowDeltas (closes : List ℚ) : List ℚ := lastN 14 (diffs closes)

/-- A monotonically increasing 14-bar series. -/
def mono14 : List ℚ := [1, 2, 3, 4, 5, 6, 7, 8, 9, 10, 11, 12, 13, 14]

/-- `diffs` shortens a list by one. -/
theorem diffs_length : ∀ l : List ℚ, (diffs l).length = l.length - 1
  | [] => rfl
  | [_] => rfl
  | a :: b :: rest => by
    have ih := diffs_length (b :: rest)
    simp only [diffs, List.length_cons] at ih ⊢
    omega

/-- A list of nonnegative rationals with a positive member has a positive
sum. -/
theorem sum_pos_of_mem : ∀ (l : List ℚ), (∀ x ∈ l, 0 ≤ x) →
    ∀ x ∈ l, 0 < x → 0 < l.sum
  | [], _, x, hx, _ => by simp at hx
  | a :: t, hnn, x, hx, hpos => by
    simp only [List.sum_cons]
    rcases List.mem_cons.mp hx with rfl | hxt
    · have ht : 0 ≤ t.sum :=
        List.sum_nonneg (fun y hy => hnn y (List.mem_cons_of_mem _ hy))
      linarith
    · have ha : 0 ≤ a := hnn a (List.mem_cons_self _ _)
      have ht : 0 < t.sum :=
        sum_pos_of_mem t (fun y hy => hnn y (List.mem_cons_of_mem _ hy)) x hxt hpos
      linarith

/-- Summing a clamped series over its final 14-slot rolling window: the
clamped leading entry is 0, so the sum equals the clamp mapped over the
window deltas (whether or not the leading slot falls inside the window). -/
theorem window_clamp_sum (f : ℚ → ℚ) (ds : List ℚ)
    (h : 13 ≤ ds.length) :
    (lastN 14 (0 :: ds.map f)).sum = ((lastN 14 ds).map f).sum := by
  unfold lastN
  rcases Nat.lt_or_ge ds.length 14 with hlt | hge
  · have h13 : ds.length = 13 := by omega
    have e1 : (0 :: ds.map f).length - 14 = 0 := by simp [h13]
    have e2 : ds.length - 14 = 0 := by omega
    rw [e1, e2, List.drop_zero, List.drop_zero, List.sum_cons]
    ring
  · have e1 : (0 :: ds.map f).length - 14 = (ds.length - 14) + 1 := by
      simp only [List.length_cons, List.length_map]
      omega
    rw [e1, List.drop_succ_cons, List.map_drop]

/-- C8: on any series of at least 14 bars whose deltas in the final
14-period window are all nonnegative and not all zero, the mean loss is
zero and the mean gain positive, the division does not fail, and the RSI
is reported as exactly 100 and classified as overbought (−1 contribution);
in particular this holds for a monotonically increasing 14-bar series. -/
theorem rsi_zero_mean_loss :
    (∀ closes : List ℚ, 14 ≤ closes.length →
      (∀ d ∈ windowDeltas closes, 0 ≤ d) →
      (∃ d ∈ windowDeltas closes, 0 < d) →
      rsiLast closes = some 100 ∧
        rsiFactor closes = (-1, FactorNote.overbought 100)) ∧
    rsiLast mono14 = some 100 ∧
    rsiFactor mono14 = (-1, FactorNote.overbought 100) := by
  have main : ∀ closes : List ℚ, 14 ≤ closes.length →
      (∀ d ∈ windowDeltas closes, 0 ≤ d) →
      (∃ d ∈ windowDeltas closes, 0 < d) →
      rsiLast closes = some 100 ∧
        rsiFactor closes = (-1, FactorNote.overbought 100) := by
    intro closes hlen hnn hex
    obtain ⟨d0, hd0, hd0pos⟩ := hex
    have hds : 13 ≤ (diffs closes).length := by
      rw [diffs_length]; omega
    have hloss : (lastN 14 (lossesOf (diffs closes))).sum = 0 := by
      unfold lossesOf
      rw [window_clamp_sum _ _ hds]
      apply List.sum_eq_zero
      intro x hx
      rcases List.mem_map.mp hx with ⟨d, hd, rfl⟩
      have hdn : 0 ≤ d := hnn d hd
      rw [if_neg (by linarith)]
    have hgain : 0 < (lastN 14 (gainsOf (diffs closes))).sum := by
      unfold gainsOf
      rw [window_clamp_sum _ _ hds]
      refine sum_pos_of_mem _ ?_ d0 ?_ hd0pos
      · intro x hx
        rcases List.mem_map.mp hx with ⟨d, hd, rfl⟩
        by_cases h : 0 < d
        · rw [if_pos h]; linarith
        · rw [if_neg h]
      · exact List.mem_map.mpr ⟨d0, hd0, if_pos hd0pos⟩
    have hrsi : rsiLast closes = some 100 := by
      unfold rsiLast
      rw [hloss]
      norm_num
      intro hg0
      rw [hg0] at hgain
      exact absurd hgain (by norm_num)
    refine ⟨hrsi, ?_⟩
    unfold rsiFactor
    rw [if_pos hlen, hrsi]
    norm_num
  have hw : windowDeltas mono14 = [1, 1, 1, 1, 1, 1, 1, 1, 1, 1, 1, 1, 1] := by
    norm_num [windowDeltas, mono14, diffs, lastN]
  have hm : rsiLast mono14 = some 100 ∧
      rsiFactor mono14 = (-1, FactorNote.overbought 100) := by
    apply main
    · norm_num [mono14]
    · intro d hd
      rw [hw] at hd
      simp only [List.mem_cons, List.not_mem_nil, or_false, or_self] at hd
      rw [hd]
      norm_num
    · exact ⟨1, by rw [hw]; simp, by norm_num⟩
  exact ⟨main, hm.1, hm.2⟩

/-- The enterprise value is linear in the free cash flow. -/
theorem dcf_ev_linear (f : ℚ) :
    dcf_enterprise_value f = f * dcf_enterprise_value 1 := by
  simp only [dcf_enterprise_value, List.range_succ, List.range_zero, List.map_append,
    List.map_cons, List.map_nil, List.sum_append, List.sum_cons, List.sum_nil]
  ring

/-- The DCF multiplier is positive. -/
theorem dcf_ev_one_pos : 0 < dcf_enterprise_value 1 := by
  norm_num [dcf_enterprise_value, List.range_succ]

/-- Evaluating `calculate_dcf_value` on a statement whose "Free Cash Flow"
line leads with a positive value and a profile with nonzero shares
outstanding. -/
theorem dcf_value_formula (rest : List (Option ℚ)) (info : Info) (f s : ℚ)
    (hs : info.sharesOutstanding = some s) (hs0 : s ≠ 0) (hf : 0 < f) :
    calculate_dcf_value ⟨[("Free Cash Flow", some f :: rest)]⟩ info =
      some (dcf_enterprise_value f / s) := by
  have hrecent : recentFcfOf ⟨[("Free Cash Flow", some f :: rest)]⟩ info = some f := rfl
  simp only [calculate_dcf_value, hrecent, List.isEmpty_cons, Bool.false_eq_true,
    if_false, hs, Option.getD_some]
  rw [if_neg (not_le.mpr hf), if_neg hs0]

/-- C4: with fixed positive shares outstanding (and every other input held
fixed), the DCF fair value per share is strictly increasing in the
most-recent positive free-cash-flow figure; in particular it holds at the
concrete inputs FCF 100 < 300 over 8 shares. -/
theorem dcf_strictly_increasing :
    (∀ (info : Info) (s f1 f2 : ℚ) (rest : List (Option ℚ)),
      info.sharesOutstanding = some s → 0 < s → 0 < f1 → f1 < f2 →
      ∃ v1 v2,
        calculate_dcf_value ⟨[("Free Cash Flow", some f1 :: rest)]⟩ info = some v1 ∧
        calculate_dcf_value ⟨[("Free Cash Flow", some f2 :: rest)]⟩ info = some v2 ∧
        v1 < v2) ∧
    (∃ w1 w2,
      calculate_dcf_value ⟨[("Free Cash Flow", [some 100])]⟩
          { sharesOutstanding := some 8 } = some w1 ∧
      calculate_dcf_value ⟨[("Free Cash Flow", [some 300])]⟩
          { sharesOutstanding := some 8 } = some w2 ∧
      w1 < w2) := by
  have main : ∀ (info : Info) (s f1 f2 : ℚ) (rest : List (Option ℚ)),
      info.sharesOutstanding = some s → 0 < s → 0 < f1 → f1 < f2 →
      ∃ v1 v2,
        calculate_dcf_value ⟨[("Free Cash Flow", some f1 :: rest)]⟩ info = some v1 ∧
        calculate_dcf_value ⟨[("Free Cash Flow", some f2 :: rest)]⟩ info = some v2 ∧
        v1 < v2 := by
    intro info s f1 f2 rest hs hspos hf1 h12
    refine ⟨_, _, dcf_value_formula rest info f1 s hs (ne_of_gt hspos) hf1,
      dcf_value_formula rest info f2 s hs (ne_of_gt hspos) (hf1.trans h12), ?_⟩
    rw [dcf_ev_linear f1, dcf_ev_linear f2, div_lt_div_iff_of_pos_right hspos]
    exact mul_lt_mul_of_pos_right h12 dcf_ev_one_pos
  exact ⟨main, main { sharesOutstanding := some 8 } 8 100 300 [] rfl (by norm_num)
    (by norm_num) (by norm_num)⟩

/-- The profile of the scoring scenario in the specification: trailing P/E 12,
debt-to-equity 0.2, dividend yield 0.04, revenue growth 0.08. -/
def scenarioInfo : Info :=
  { trailingPE := some 12, debtToEquity := some (1/5),
    dividendYield := some (1/25), revenueGrowth := some (2/25) }

/-- A concrete 60-bar uptrending history realizing the scenario: the
current close is above the 20-day moving average, which is above the
50-day moving average, and the final 14-period window of deltas makes the
RSI exactly 25. -/
def scenarioCloses : List ℚ :=
  [0, 2, 4, 6, 8, 10, 12, 14, 16, 18, 20, 22, 24, 26, 28, 30, 32, 34, 36, 38,
   40, 42, 44, 46, 48, 50, 52, 54, 56, 58, 60, 62, 64, 66, 68, 70, 72, 74, 76, 78,
   80, 82, 84, 86, 88, 90, 91, 88, 88, 88, 88, 88, 88, 88, 88, 88, 88, 88, 88, 88]

/-- C2: the verdict thresholds of the recommendation scorer are exactly
the claimed ones (≥ 4 strong buy, ≥ 2 buy, ≥ 0 hold, ≥ −2 weak sell, else
sell); and the scenario profile with a 60-bar history satisfying
current > MA20 > MA50 and RSI = 25 scores 2+2+1+1+1+1 = 8 with verdict
strong buy — realized concretely by `scenarioCloses`. -/
theorem recommendation_thresholds_scenario :
    (∀ s : ℤ,
      (actionOf s = Verdict.strongBuy ↔ 4 ≤ s) ∧
      (actionOf s = Verdict.buy ↔ 2 ≤ s ∧ s < 4) ∧
      (actionOf s = Verdict.hold ↔ 0 ≤ s ∧ s < 2) ∧
      (actionOf s = Verdict.weakSell ↔ -2 ≤ s ∧ s < 0) ∧
      (actionOf s = Verdict.sell ↔ s < -2)) ∧
    (∀ closes : List ℚ, closes.length = 60 →
      lastD closes > maLast 20 closes → maLast 20 closes > maLast 50 closes →
      rsiLast closes = some 25 →
      totalScore scenarioInfo closes = 8 ∧
        (get_recommendation scenarioInfo closes).action = Verdict.strongBuy) ∧
    (get_recommendation scenarioInfo scenarioCloses).score = 8 ∧
    (get_recommendation scenarioInfo scenarioCloses).action = Verdict.strongBuy := by
  have main : ∀ closes : List ℚ, closes.length = 60 →
      lastD closes > maLast 20 closes → maLast 20 closes > maLast 50 closes →
      rsiLast closes = some 25 →
      totalScore scenarioInfo closes = 8 ∧
        (get_recommendation scenarioInfo closes).action = Verdict.strongBuy := by
    intro closes hlen hm1 hm2 hrsi
    have hpe : (peFactor scenarioInfo).1 = 2 := by norm_num [peFactor, scenarioInfo]
    have hmom : (momentumFactor closes).1 = 2 := by
      unfold momentumFactor
      rw [if_pos (by omega : 50 ≤ closes.length), if_pos ⟨hm1, hm2⟩]
    have hrsif : (rsiFactor closes).1 = 1 := by
      unfold rsiFactor
      rw [if_pos (by omega : 14 ≤ closes.length), hrsi]
      norm_num
    have hh : (healthFactor scenarioInfo).1 = 1 := by
      norm_num [healthFactor, scenarioInfo]
    have hdiv : (dividendFactor scenarioInfo).1 = 1 := by
      norm_num [dividendFactor, scenarioInfo]
    have hgrow : (growthFactor scenarioInfo).1 = 1 := by
      norm_num [growthFactor, scenarioInfo]
    have hts : totalScore scenarioInfo closes = 8 := by
      unfold totalScore
      rw [hpe, hmom, hrsif, hh, hdiv, hgrow]
      norm_num
    refine ⟨hts, ?_⟩
    show actionOf (totalScore scenarioInfo closes) = Verdict.strongBuy
    rw [hts]
    rfl
  refine ⟨?_, main, ?_⟩
  · intro s
    unfold actionOf
    split_ifs <;> refine ⟨?_, ?_, ?_, ?_, ?_⟩ <;> simp <;> omega
  · have hlen : scenarioCloses.length = 60 := rfl
    have e1 : lastD scenarioCloses = 88 := rfl
    have e20 : lastN 20 scenarioCloses =
        [80, 82, 84, 86, 88, 90, 91, 88, 88, 88, 88, 88, 88, 88, 88, 88, 88, 88,
         88, 88] := rfl
    have e50 : lastN 50 scenarioCloses =
        [20, 22, 24, 26, 28, 30, 32, 34, 36, 38, 40, 42, 44, 46, 48, 50, 52, 54,
         56, 58, 60, 62, 64, 66, 68, 70, 72, 74, 76, 78, 80, 82, 84, 86, 88, 90,
         91, 88, 88, 88, 88, 88, 88, 88, 88, 88, 88, 88, 88, 88] := rfl
    have hm1 : lastD scenarioCloses > maLast 20 scenarioCloses := by
      rw [e1]; unfold maLast; rw [e20]; norm_num
    have hm2 : maLast 20 scenarioCloses > maLast 50 scenarioCloses := by
      unfold maLast; rw [e20, e50]; norm_num
    have hd : diffs scenarioCloses =
        [2, 2, 2, 2, 2, 2, 2, 2, 2, 2, 2, 2, 2, 2, 2, 2, 2, 2, 2, 2, 2, 2, 2, 2,
         2, 2, 2, 2, 2, 2, 2, 2, 2, 2, 2, 2, 2, 2, 2, 2, 2, 2, 2, 2, 2, 1, -3, 0,
         0, 0, 0, 0, 0, 0, 0, 0, 0, 0, 0] := by
      norm_num [scenarioCloses, diffs]
    have hrsi : rsiLast scenarioCloses = some 25 := by
      unfold rsiLast
      rw [hd]
      norm_num [gainsOf, lossesOf, lastN]
    have h8 := main scenarioCloses hlen hm1 hm2 hrsi
    exact ⟨h8.1, h8.2⟩
